import Mathlib

/-!
Shallow embedding of the food-safety classification logic of the
precision-health repository: the `handleLookup` handler of
`src/components/FoodLookup.tsx` and the `calculateDishRisk` /
`assessDishRisks` / `filteredDishes` logic of
`src/components/RestaurantBrowser.tsx`.

Remote calls are modelled by environments whose fields hold the response of
each awaited call; `Except Unit` models a call that may throw.  Mutable
locals are threaded explicitly.  String-typed classifications mirror the
TypeScript string literals.
-/

set_option maxHeartbeats 1000000

namespace PrecisionHealth

/-- Decidable equality for modelled call responses. -/
instance exceptDecEq {ε α : Type} [DecidableEq ε] [DecidableEq α] :
    DecidableEq (Except ε α) := fun a b =>
  match a, b with
  | .error e1, .error e2 =>
      if h : e1 = e2 then isTrue (h ▸ rfl) else isFalse (fun hc => h (by injection hc))
  | .ok a1, .ok a2 =>
      if h : a1 = a2 then isTrue (h ▸ rfl) else isFalse (fun hc => h (by injection hc))
  | .error _, .ok _ => isFalse (fun hc => by injection hc)
  | .ok _, .error _ => isFalse (fun hc => by injection hc)

/-- A toxicity-warning entry of the jsonb `toxicity_warnings` array of an
`ingredients` row: `species` is the optional array of species names,
`effect` the optional description; either key may be absent. -/
structure ToxicityWarning where
  species : Option (List String)
  effect : Option String
  deriving DecidableEq

/-- An `ingredients` row as selected by both components: `species_safe` is a
possibly-null jsonb object mapping a species name to a boolean, and
`toxicity_warnings` a possibly-null array. -/
structure Ingredient where
  id : String
  name : String
  species_safe : Option (List (String × Bool))
  toxicity_warnings : Option (List ToxicityWarning)
  deriving DecidableEq

/-- An `ingredient_contraindications` row (the columns the components read);
`contraindication_type` is one of avoid, caution, limit by schema check
constraint, but the embedding leaves it an arbitrary string as the code
does. -/
structure Contraindication where
  ingredient_id : String
  condition_name : String
  contraindication_type : String
  rationale : String
  species_type : String
  deriving DecidableEq

/-- JavaScript `x || d` on an optional string: null, undefined and the empty
string are all falsy. -/
def jsOrString (x : Option String) (d : String) : String :=
  match x with
  | none => d
  | some s => if s = "" then d else s

/-- The test `warning.species?.includes(speciesType)` on one entry of
`toxicity_warnings` (optional chaining: a missing array gives false). -/
def warningListsSpecies (speciesType : String) (w : ToxicityWarning) : Bool :=
  match w.species with
  | none => false
  | some l => l.contains speciesType

/-- The toxicity-warning entry `find` returns for the species, under the
guard `toxicity_warnings && toxicity_warnings.length > 0` that both
components place in front of it. -/
def toxicFind (ing : Ingredient) (speciesType : String) : Option ToxicityWarning :=
  match ing.toxicity_warnings with
  | none => none
  | some ws => if ws.length > 0 then ws.find? (warningListsSpecies speciesType) else none

/-- JavaScript object access `m[speciesType]` on the parsed `species_safe`
jsonb object. -/
def speciesSafeGet (m : List (String × Bool)) (k : String) : Option Bool :=
  (m.find? (fun p => p.1 == k)).map (fun p => p.2)

/-- The test `ingredient.species_safe && ingredient.species_safe[speciesType] === false`. -/
def speciesSafeFalse (ing : Ingredient) (speciesType : String) : Bool :=
  match ing.species_safe with
  | none => false
  | some m => speciesSafeGet m speciesType == some false

/-- The `LookupResult` record `handleLookup` builds. -/
structure LookupResult where
  food_name : String
  safety_classification : String
  rationale : String
  ingredients_identified : List String
  deriving DecidableEq

/-- The toxicity check of `handleLookup` (first branch), acting on the
running classification/rationale pair. -/
def lookupToxStep (ing : Ingredient) (speciesType : String)
    (cr : String × String) : String × String :=
  match toxicFind ing speciesType with
  | some w =>
      ("avoid", "DANGER: " ++ ing.name ++ " is toxic to " ++ speciesType ++ "s. " ++
        jsOrString w.effect "Can cause serious health issues.")
  | none => cr

/-- The species-safe check of `handleLookup` (second branch), guarded on the
classification still being safe. -/
def lookupSpeciesStep (ing : Ingredient) (speciesType : String)
    (cr : String × String) : String × String :=
  if cr.1 == "safe" && speciesSafeFalse ing speciesType then
    ("avoid", ing.name ++ " is not safe for " ++ speciesType ++ " consumption.")
  else cr

/-- The contraindication check of `handleLookup` (third branch); `contras`
is the row set the query filtered on the ingredient id and the species.
Note the branch carries no guard on the classification already assigned. -/
def lookupContraStep (ing : Ingredient) (contras : List Contraindication)
    (cr : String × String) : String × String :=
  if contras.length > 0 then
    let avoidConditions := contras.filter (fun c => c.contraindication_type == "avoid")
    let cautionConditions := contras.filter (fun c =>
      c.contraindication_type == "caution" || c.contraindication_type == "limit")
    if avoidConditions.length > 0 then
      ("caution", "Use caution: " ++ ing.name ++ " should be avoided if you have " ++
        String.intercalate ", " (avoidConditions.map (fun c => c.condition_name)) ++ ".")
    else if cautionConditions.length > 0 then
      ("caution", "Monitor intake: " ++ ing.name ++ " should be limited if you have " ++
        String.intercalate ", " (cautionConditions.map (fun c => c.condition_name)) ++ ".")
    else cr
  else cr

/-- The classification and rationale `handleLookup` computes once the
ingredient row was found and a user is signed in: the three checks run in
sequence over the initial safe defaults. -/
def classifyIngredient (ing : Ingredient) (speciesType : String)
    (contras : List Contraindication) : String × String :=
  lookupContraStep ing contras
    (lookupSpeciesStep ing speciesType
      (lookupToxStep ing speciesType
        ("safe", "This food appears to be generally safe for consumption.")))

/-- The responses of the remote calls `handleLookup` awaits, in program
order: the ingredient query, the first `auth.getUser`, the profile
species read, the contraindication query, the second `auth.getUser` and the
history insert.  An `Except.error` is a call that throws. -/
structure LookupEnv where
  ingredientQ : Except Unit (Option Ingredient)
  userQ1 : Except Unit Bool
  profileQ : Except Unit (Option String)
  contrasQ : Except Unit (List Contraindication)
  userQ2 : Except Unit Bool
  insertQ : Except Unit Unit
  deriving DecidableEq

/-- The try block of `handleLookup` up to and including the construction of
`lookupResult`, the value passed to `setResult`; an error is an exception
thrown before the result exists. -/
def handleLookupPre (env : LookupEnv) (searchQuery : String) :
    Except Unit LookupResult :=
  match env.ingredientQ with
  | .error e => .error e
  | .ok none =>
      .ok { food_name := searchQuery
            safety_classification := "caution"
            rationale := "This food is not in our database yet. Please consult with a healthcare professional if you have specific dietary concerns."
            ingredients_identified := [] }
  | .ok (some ing) =>
      match env.userQ1 with
      | .error e => .error e
      | .ok false =>
          .ok { food_name := searchQuery
                safety_classification := "safe"
                rationale := "This food appears to be generally safe for consumption."
                ingredients_identified := [ing.name] }
      | .ok true =>
          match env.profileQ with
          | .error e => .error e
          | .ok speciesOpt =>
              match env.contrasQ with
              | .error e => .error e
              | .ok contras =>
                  let speciesType := jsOrString speciesOpt "human"
                  let c := classifyIngredient ing speciesType contras
                  .ok { food_name := searchQuery
                        safety_classification := c.1
                        rationale := c.2
                        ingredients_identified := [ing.name] }

/-- The result stored by `setResult` and whether the try block threw, after
the whole try/catch of `handleLookup` ran: the history-recording calls that
follow `setResult(lookupResult)` may still throw, but the stored result is
not retracted by the catch handler. -/
def handleLookupRun (env : LookupEnv) (searchQuery : String) :
    Option LookupResult × Bool :=
  match handleLookupPre env searchQuery with
  | .error _ => (none, true)
  | .ok r =>
      match env.userQ2 with
      | .error _ => (some r, true)
      | .ok false => (some r, false)
      | .ok true =>
          match env.insertQ with
          | .error _ => (some r, true)
          | .ok _ => (some r, false)

/-- The component state `handleLookup` touches: the loading flag and the
stored result. -/
structure LookupUiState where
  loading : Bool
  result : Option LookupResult
  deriving DecidableEq

/-- The guard `!searchQuery.trim()`: the query trims to the empty string,
that is, every character is whitespace. -/
def blankQuery (q : String) : Bool :=
  q.toList.all Char.isWhitespace

/-- One invocation of `handleLookup` as a state transformer: the empty-query
guard returns before touching any state; otherwise the try/catch/finally
body runs and the finally clause clears the loading flag. -/
def handleLookup (env : LookupEnv) (searchQuery : String)
    (st : LookupUiState) : LookupUiState :=
  if blankQuery searchQuery then st
  else { loading := false, result := (handleLookupRun env searchQuery).1 }

/-- The heading the result panel renders: the three conditional JSX
fragments, concatenated (a false condition renders nothing). -/
def renderHeading (r : LookupResult) : String :=
  (if r.safety_classification == "safe" then "SAFE" else "") ++
  (if r.safety_classification == "caution" then "USE CAUTION" else "") ++
  (if r.safety_classification == "avoid" then "AVOID" else "")

/-- A `dishes` row, restricted to the fields the risk assessment and the
filter read. -/
structure Dish where
  id : String
  ingredients : List String
  deriving DecidableEq

/-- One entry pushed onto the `contraindications` array of an assessment. -/
structure ContraEntry where
  ingredient : String
  reason : String
  severity : String
  deriving DecidableEq

/-- The `DishRiskAssessment` record of the restaurant browser. -/
structure DishRiskAssessment where
  dish_id : String
  risk_classification : String
  risk_score : Nat
  rationale : String
  contraindications : List ContraEntry
  recommended_substitutions : List Unit
  deriving DecidableEq

/-- The mutable locals of `calculateDishRisk` while it loops over the dish
ingredients. -/
structure RiskState where
  riskClassification : String
  riskScore : Nat
  rationale : String
  contraindications : List ContraEntry
  deriving DecidableEq

/-- The initial values of the locals of `calculateDishRisk`. -/
def initRiskState : RiskState :=
  { riskClassification := "neutral"
    riskScore := 50
    rationale := "This dish has been reviewed for your profile."
    contraindications := [] }

/-- The responses of the remote calls of the restaurant browser: the profile
species read, the per-name ingredient query and the per-ingredient
contraindication query (`maybeSingle`). -/
structure DishEnv where
  profileQ : Except Unit (Option String)
  ingredientQ : String → Except Unit (Option Ingredient)
  contraQ : String → String → Except Unit (Option Contraindication)

/-- The body of the for-loop of `calculateDishRisk` for one ingredient name:
the updated locals and whether the loop breaks, or the exception of a failed
call. -/
def stepIngredient (env : DishEnv) (speciesType : String) (st : RiskState)
    (name : String) : Except Unit (RiskState × Bool) :=
  match env.ingredientQ name with
  | .error e => .error e
  | .ok none => .ok (st, false)
  | .ok (some ing) =>
      match toxicFind ing speciesType with
      | some w =>
          .ok ({ riskClassification := "avoid"
                 riskScore := 95
                 rationale := "DANGER: " ++ ing.name ++ " is toxic to " ++
                   speciesType ++ "s. " ++ jsOrString w.effect ""
                 contraindications := st.contraindications ++
                   [{ ingredient := ing.name, reason := "toxic", severity := "critical" }] },
               true)
      | none =>
          if speciesSafeFalse ing speciesType then
            .ok ({ riskClassification := "avoid"
                   riskScore := 90
                   rationale := ing.name ++ " is not safe for " ++ speciesType ++ " consumption."
                   contraindications := st.contraindications ++
                     [{ ingredient := ing.name, reason := "unsafe_for_species", severity := "high" }] },
                 true)
          else
            match env.contraQ ing.id speciesType with
            | .error e => .error e
            | .ok none => .ok (st, false)
            | .ok (some c) =>
                if c.contraindication_type == "avoid" then
                  .ok ({ riskClassification := "caution"
                         riskScore := max st.riskScore 70
                         rationale := "Contains " ++ ing.name ++ ": " ++ c.rationale
                         contraindications := st.contraindications ++
                           [{ ingredient := ing.name, reason := c.rationale, severity := "medium" }] },
                       false)
                else if c.contraindication_type == "limit" then
                  if st.riskClassification == "neutral" then
                    .ok ({ st with riskClassification := "caution"
                                   riskScore := max st.riskScore 60 }, false)
                  else .ok (st, false)
                else .ok (st, false)

/-- The for-loop of `calculateDishRisk` over the names of the dish
ingredients. -/
def riskLoop (env : DishEnv) (speciesType : String) :
    RiskState → List String → Except Unit RiskState
  | st, [] => .ok st
  | st, name :: rest =>
      match stepIngredient env speciesType st name with
      | .error e => .error e
      | .ok (st2, true) => .ok st2
      | .ok (st2, false) => riskLoop env speciesType st2 rest

/-- The default-safe rewrite after the loop of `calculateDishRisk`. -/
def finalizeRisk (st : RiskState) : RiskState :=
  if st.riskClassification == "neutral" && st.contraindications.length == 0 then
    { st with riskClassification := "safe"
              riskScore := 20
              rationale := "This dish appears safe based on your health profile." }
  else st

/-- The try block of `calculateDishRisk`. -/
def calcDishRiskBody (env : DishEnv) (dish : Dish) :
    Except Unit DishRiskAssessment :=
  match env.profileQ with
  | .error e => .error e
  | .ok speciesOpt =>
      match riskLoop env (jsOrString speciesOpt "human") initRiskState dish.ingredients with
      | .error e => .error e
      | .ok st0 =>
          let st := finalizeRisk st0
          .ok { dish_id := dish.id
                risk_classification := st.riskClassification
                risk_score := st.riskScore
                rationale := st.rationale
                contraindications := st.contraindications
                recommended_substitutions := [] }

/-- The assessment returned by the catch handler of `calculateDishRisk`. -/
def fallbackAssessment (dishId : String) : DishRiskAssessment :=
  { dish_id := dishId
    risk_classification := "neutral"
    risk_score := 50
    rationale := "Unable to assess risk at this time."
    contraindications := []
    recommended_substitutions := [] }

/-- `calculateDishRisk` with its catch handler. -/
def calculateDishRisk (env : DishEnv) (dish : Dish) : DishRiskAssessment :=
  match calcDishRiskBody env dish with
  | .ok a => a
  | .error _ => fallbackAssessment dish.id

/-- The filter predicate inside `filteredDishes`, with JavaScript optional
chaining: a dish without a stored assessment fails the safe and beneficial
filters but passes the all filter. -/
def dishVisible (filterRisk : String)
    (assessment : Option DishRiskAssessment) : Bool :=
  if filterRisk == "safe" then
    match assessment with
    | none => false
    | some a => a.risk_classification == "safe" || a.risk_classification == "beneficial"
  else if filterRisk == "beneficial" then
    match assessment with
    | none => false
    | some a => a.risk_classification == "beneficial"
  else
    match assessment with
    | none => true
    | some a => !(a.risk_classification == "avoid")

/-- `filteredDishes`: the dish list filtered against the stored risk map. -/
def filteredDishes (filterRisk : String) (dishes : List Dish)
    (riskAssessments : String → Option DishRiskAssessment) : List Dish :=
  dishes.filter (fun d => dishVisible filterRisk (riskAssessments d.id))

/-- The loop of `assessDishRisks`: a fresh map is built by assessing every
dish of the list in order (each assessment is also upserted remotely). -/
def assessLoop (env : DishEnv) : List Dish → List (String × DishRiskAssessment)
  | [] => []
  | d :: rest => (d.id, calculateDishRisk env d) :: assessLoop env rest

/-- `assessDishRisks` as a transformer of the `riskAssessments` map: with no
signed-in user it returns early keeping the previous map, otherwise the map
is replaced by the freshly built one (`new Map()` plus one set per dish). -/
def assessDishRisks (env : DishEnv) (user : Bool) (dishList : List Dish)
    (prior : List (String × DishRiskAssessment)) :
    List (String × DishRiskAssessment) :=
  if user then assessLoop env dishList else prior

/-- One remote call issued by the restaurant browser. -/
inductive CallEvent where
  | profileQ : CallEvent
  | ingredientQ : String → CallEvent
  | contraQ : String → String → CallEvent
  | getUser : CallEvent
  | upsert : String → CallEvent
  deriving DecidableEq

/-- The remote calls the loop of `calculateDishRisk` issues, in order: one
ingredient query per name, then its contraindication query unless the row
was missing, toxic or species-unsafe; a break or a thrown call ends the
trace. -/
def riskLoopTrace (env : DishEnv) (speciesType : String) :
    List String → List CallEvent
  | [] => []
  | name :: rest =>
      match env.ingredientQ name with
      | .error _ => [CallEvent.ingredientQ name]
      | .ok none => CallEvent.ingredientQ name :: riskLoopTrace env speciesType rest
      | .ok (some ing) =>
          match toxicFind ing speciesType with
          | some _ => [CallEvent.ingredientQ name]
          | none =>
              if speciesSafeFalse ing speciesType then [CallEvent.ingredientQ name]
              else
                match env.contraQ ing.id speciesType with
                | .error _ => [CallEvent.ingredientQ name, CallEvent.contraQ ing.id speciesType]
                | .ok _ =>
                    CallEvent.ingredientQ name :: CallEvent.contraQ ing.id speciesType ::
                      riskLoopTrace env speciesType rest

/-- The remote calls one `calculateDishRisk` invocation issues: the profile
read first, then the per-ingredient calls. -/
def calcDishTrace (env : DishEnv) (dish : Dish) : List CallEvent :=
  CallEvent.profileQ ::
    (match env.profileQ with
     | .error _ => []
     | .ok speciesOpt => riskLoopTrace env (jsOrString speciesOpt "human") dish.ingredients)

/-- The remote calls the dish loop of `assessDishRisks` issues: each dish is
fully assessed and its assessment upserted before the next dish is
touched. -/
def assessDishesTrace (env : DishEnv) : List Dish → List CallEvent
  | [] => []
  | d :: rest => (calcDishTrace env d ++ [CallEvent.upsert d.id]) ++ assessDishesTrace env rest

/-- The ingredient name an event queries, if any. -/
def eventIngredientName : CallEvent → Option String
  | CallEvent.ingredientQ n => some n
  | _ => none

/-- The ingredient names a trace queries, in trace order. -/
def tracedIngredientNames (t : List CallEvent) : List String :=
  t.filterMap eventIngredientName

/-- An ingredient name falls through every check of `calculateDishRisk`: the
row is found, no toxicity warning lists the species, the species-safe flag
is not false for it, and the contraindication query finds no row. -/
def fallsThrough (env : DishEnv) (speciesType name : String) : Bool :=
  match env.ingredientQ name with
  | .ok (some ing) =>
      (toxicFind ing speciesType).isNone &&
      !(speciesSafeFalse ing speciesType) &&
      (env.contraQ ing.id speciesType == Except.ok none)
  | _ => false

/-- The reachable loop states of `calculateDishRisk` before a break. -/
def GoodLoopState (st : RiskState) : Prop :=
  (st.riskClassification = "neutral" ∧ st.riskScore = 50 ∧ st.contraindications = []) ∨
  (st.riskClassification = "caution" ∧ (st.riskScore = 60 ∨ st.riskScore = 70))

/-- Sample ingredient row: chocolate, toxic to dogs. -/
def chocIngredient : Ingredient :=
  { id := "ing-1"
    name := "chocolate"
    species_safe := none
    toxicity_warnings := some [{ species := some ["dog"], effect := some "theobromine poisoning" }] }

/-- Sample contraindication row of type avoid, for dogs, on chocolate. -/
def kidneyContra : Contraindication :=
  { ingredient_id := "ing-1"
    condition_name := "kidney disease"
    contraindication_type := "avoid"
    rationale := "high fat content"
    species_type := "dog" }

/-- Sample dish whose only ingredient is chocolate. -/
def chocDish : Dish := { id := "dish-1", ingredients := ["chocolate"] }

/-- Sample restaurant-browser environment: a dog profile, the chocolate row
and its avoid-type contraindication row. -/
def chocDishEnv : DishEnv :=
  { profileQ := .ok (some "dog")
    ingredientQ := fun _ => .ok (some chocIngredient)
    contraQ := fun _ _ => .ok (some kidneyContra) }

/-- Sample lookup environment in which only the history insert throws; the
searched food is not in the database. -/
def insertFailEnv : LookupEnv :=
  { ingredientQ := .ok none
    userQ1 := .ok true
    profileQ := .ok (some "human")
    contrasQ := .ok []
    userQ2 := .ok true
    insertQ := .error () }

/-- Sample lookup environment whose ingredient query finds no row and whose
remaining calls all succeed. -/
def missEnv : LookupEnv :=
  { ingredientQ := .ok none
    userQ1 := .ok true
    profileQ := .ok (some "human")
    contrasQ := .ok []
    userQ2 := .ok false
    insertQ := .ok () }

/-- The result `handleLookup` builds for a food that is not in the
database. -/
def notFoundResult (q : String) : LookupResult :=
  { food_name := q
    safety_classification := "caution"
    rationale := "This food is not in our database yet. Please consult with a healthcare professional if you have specific dietary concerns."
    ingredients_identified := [] }

/-- Sample result carrying a given classification, for the rendering
witnesses. -/
def sampleResult (c : String) : LookupResult :=
  { food_name := "sample"
    safety_classification := c
    rationale := "sample rationale"
    ingredients_identified := [] }

/-- A second sample result with the same classification but different other
fields. -/
def sampleResult2 (c : String) : LookupResult :=
  { food_name := "other"
    safety_classification := c
    rationale := "other rationale"
    ingredients_identified := ["x"] }

/-- Sample benign ingredient row: no toxicity warning, safe for humans. -/
def appleIngredient : Ingredient :=
  { id := "ing-2"
    name := "apple"
    species_safe := some [("human", true)]
    toxicity_warnings := some [] }

/-- Sample dish whose only ingredient is the benign apple. -/
def appleDish : Dish := { id := "dish-2", ingredients := ["apple"] }

/-- Sample restaurant-browser environment in which every check falls
through: a human profile, the apple row, no contraindication row. -/
def appleDishEnv : DishEnv :=
  { profileQ := .ok (some "human")
    ingredientQ := fun _ => .ok (some appleIngredient)
    contraQ := fun _ _ => .ok none }

/-- Sample lookup environment in which every check falls through. -/
def appleLookupEnv : LookupEnv :=
  { ingredientQ := .ok (some appleIngredient)
    userQ1 := .ok true
    profileQ := .ok (some "human")
    contrasQ := .ok []
    userQ2 := .ok false
    insertQ := .ok () }

/-- Sample restaurant-browser environment whose profile query throws. -/
def failDishEnv : DishEnv :=
  { profileQ := .error ()
    ingredientQ := fun _ => .ok none
    contraQ := fun _ _ => .ok none }

/-- Sample lookup environment whose very first call throws. -/
def preFailLookupEnv : LookupEnv :=
  { ingredientQ := .error ()
    userQ1 := .ok true
    profileQ := .ok none
    contrasQ := .ok []
    userQ2 := .ok true
    insertQ := .ok () }

/-- Sample stored assessment classified avoid. -/
def avoidAssessment : DishRiskAssessment :=
  { dish_id := "dish-1"
    risk_classification := "avoid"
    risk_score := 95
    rationale := "sample"
    contraindications := []
    recommended_substitutions := [] }

/-- Sample stored assessment classified safe. -/
def safeAssessment : DishRiskAssessment :=
  { dish_id := "dish-1"
    risk_classification := "safe"
    risk_score := 20
    rationale := "sample"
    contraindications := []
    recommended_substitutions := [] }

/-- Sample stored risk map marking every dish avoid. -/
def avoidMap : String → Option DishRiskAssessment := fun _ => some avoidAssessment

/-- Sample stored risk map marking every dish safe. -/
def safeMap : String → Option DishRiskAssessment := fun _ => some safeAssessment

end PrecisionHealth

namespace PrecisionHealth

/-- Helper: once the try block of `handleLookup` reached
`setResult(lookupResult)`, the stored result is that value no matter how the
later history-recording calls behave. -/
theorem handleLookupRun_fst_of_pre_ok (env : LookupEnv) (q : String)
    (r : LookupResult) (h : handleLookupPre env q = Except.ok r) :
    (handleLookupRun env q).1 = some r := by
  unfold handleLookupRun
  rw [h]
  cases hu : env.userQ2 with
  | error e => rfl
  | ok b =>
    cases b with
    | false => rfl
    | true =>
      cases hi : env.insertQ with
      | error e => rfl
      | ok u => rfl

/-- Helper: if the stored result of `handleLookupRun` is some value, the try
block reached `setResult(lookupResult)` with exactly that value. -/
theorem handleLookupRun_fst_some (env : LookupEnv) (q : String)
    (r : LookupResult) (h : (handleLookupRun env q).1 = some r) :
    handleLookupPre env q = Except.ok r := by
  unfold handleLookupRun at h
  cases hp : handleLookupPre env q with
  | error e => rw [hp] at h; exact absurd h (by simp)
  | ok r2 =>
    rw [hp] at h
    cases hu : env.userQ2 with
    | error e => rw [hu] at h; simp at h; rw [h]
    | ok b =>
      rw [hu] at h
      cases b with
      | false => simp at h; rw [h]
      | true =>
        cases hi : env.insertQ with
        | error e => rw [hi] at h; simp at h; rw [h]
        | ok u => rw [hi] at h; simp at h; rw [h]

/-- C1: the claimed first-match-wins rule (a classification assigned by an
earlier check is never changed by a later check) fails on `handleLookup`:
for a chocolate lookup under a dog profile the toxicity check assigns avoid,
but the contraindication branch, which carries no guard on the already
assigned classification, overwrites it with caution; `calculateDishRisk` on
the very same rows keeps avoid because it breaks out of its loop at the
toxicity check. -/
theorem c1_first_match_wins_violated :
    (lookupToxStep chocIngredient "dog"
      ("safe", "This food appears to be generally safe for consumption.")).1 = "avoid" ∧
    (classifyIngredient chocIngredient "dog" [kidneyContra]).1 = "caution" ∧
    (calculateDishRisk chocDishEnv chocDish).risk_classification = "avoid" := by
  decide

/-- C5 counterexample: when the history insert throws after
`setResult(lookupResult)` already ran, the try block of `handleLookup`
fails, yet the stored result is not cleared — the claim that no result is
stored whenever `handleLookup` fails is false on this input. -/
theorem c5_failure_keeps_result :
    (handleLookupRun insertFailEnv "pizza").2 = true ∧
    (handleLookupRun insertFailEnv "pizza").1 ≠ none := by
  decide

/-- C6: a query that survives the trim guard and whose ingredient lookup
returns no row is classified caution, with the rationale saying the food is
not in the database, and with no identified ingredients. -/
theorem c6_not_found_is_caution (env : LookupEnv) (q : String)
    (st : LookupUiState) (hq : blankQuery q = false)
    (hmiss : env.ingredientQ = Except.ok none) :
    (handleLookup env q st).result = some (notFoundResult q) := by
  unfold handleLookup
  rw [hq]
  simp only [Bool.false_eq_true, if_false]
  have hpre : handleLookupPre env q = Except.ok (notFoundResult q) := by
    unfold handleLookupPre
    rw [hmiss]
    rfl
  exact handleLookupRun_fst_of_pre_ok env q (notFoundResult q) hpre

/-- C6 witness: the concrete missing-row lookup. -/
theorem c6_not_found_is_caution_witness :
    (handleLookup missEnv "pizza" { loading := true, result := none }).result =
      some (notFoundResult "pizza") :=
  c6_not_found_is_caution missEnv "pizza" { loading := true, result := none }
    (by decide) (by decide)

/-- C8: the heading the result panel renders is a function of the safety
classification alone, and its value is SAFE, USE CAUTION or AVOID exactly
when the classification is safe, caution or avoid. -/
theorem c8_heading_from_classification :
    (∀ r1 r2 : LookupResult,
      r1.safety_classification = r2.safety_classification →
      renderHeading r1 = renderHeading r2) ∧
    (∀ r : LookupResult,
      (r.safety_classification = "safe" → renderHeading r = "SAFE") ∧
      (r.safety_classification = "caution" → renderHeading r = "USE CAUTION") ∧
      (r.safety_classification = "avoid" → renderHeading r = "AVOID")) := by
  constructor
  · intro r1 r2 h
    unfold renderHeading
    rw [h]
  · intro r
    refine ⟨?_, ?_, ?_⟩
    · intro hs; unfold renderHeading; rw [hs]; decide
    · intro hs; unfold renderHeading; rw [hs]; decide
    · intro hs; unfold renderHeading; rw [hs]; decide

/-- C8 witness: the heading evaluated on concrete results of each
classification, and on two results sharing a classification. -/
theorem c8_heading_from_classification_witness :
    renderHeading (sampleResult "safe") = "SAFE" ∧
    renderHeading (sampleResult "caution") = "USE CAUTION" ∧
    renderHeading (sampleResult "avoid") = "AVOID" ∧
    renderHeading (sampleResult2 "safe") = renderHeading (sampleResult "safe") :=
  ⟨(c8_heading_from_classification.2 (sampleResult "safe")).1 rfl,
   (c8_heading_from_classification.2 (sampleResult "caution")).2.1 rfl,
   (c8_heading_from_classification.2 (sampleResult "avoid")).2.2 rfl,
   c8_heading_from_classification.1 (sampleResult2 "safe") (sampleResult "safe") rfl⟩

/-- Helper: the toxicity check keeps the running classification or assigns
avoid. -/
theorem lookupToxStep_fst (ing : Ingredient) (sp : String) (cr : String × String) :
    (lookupToxStep ing sp cr).1 = cr.1 ∨ (lookupToxStep ing sp cr).1 = "avoid" := by
  unfold lookupToxStep
  split
  · exact Or.inr rfl
  · exact Or.inl rfl

/-- Helper: the species-safe check keeps the running classification or
assigns avoid. -/
theorem lookupSpeciesStep_fst (ing : Ingredient) (sp : String) (cr : String × String) :
    (lookupSpeciesStep ing sp cr).1 = cr.1 ∨ (lookupSpeciesStep ing sp cr).1 = "avoid" := by
  unfold lookupSpeciesStep
  split
  · exact Or.inr rfl
  · exact Or.inl rfl

/-- Helper: the contraindication check keeps the running classification or
assigns caution. -/
theorem lookupContraStep_fst (ing : Ingredient) (contras : List Contraindication)
    (cr : String × String) :
    (lookupContraStep ing contras cr).1 = cr.1 ∨
      (lookupContraStep ing contras cr).1 = "caution" := by
  unfold lookupContraStep
  split
  · dsimp only
    split
    · exact Or.inr rfl
    · split
      · exact Or.inr rfl
      · exact Or.inl rfl
  · exact Or.inl rfl

/-- Helper: the classification a signed-in lookup computes is one of safe,
caution, avoid. -/
theorem classifyIngredient_fst_mem (ing : Ingredient) (sp : String)
    (contras : List Contraindication) :
    (classifyIngredient ing sp contras).1 ∈
      (["safe", "caution", "avoid"] : List String) := by
  unfold classifyIngredient
  rcases lookupContraStep_fst ing contras
      (lookupSpeciesStep ing sp (lookupToxStep ing sp
        ("safe", "This food appears to be generally safe for consumption."))) with h | h
  · rw [h]
    rcases lookupSpeciesStep_fst ing sp (lookupToxStep ing sp
        ("safe", "This food appears to be generally safe for consumption.")) with h2 | h2
    · rw [h2]
      rcases lookupToxStep_fst ing sp
          ("safe", "This food appears to be generally safe for consumption.") with h3 | h3
      · rw [h3]; decide
      · rw [h3]; decide
    · rw [h2]; decide
  · rw [h]; decide

/-- Helper: every result the try block of `handleLookup` can reach carries a
classification among safe, caution, avoid. -/
theorem handleLookupPre_classification (env : LookupEnv) (q : String)
    (r : LookupResult) (h : handleLookupPre env q = Except.ok r) :
    r.safety_classification ∈ (["safe", "caution", "avoid"] : List String) := by
  unfold handleLookupPre at h
  split at h
  · exact absurd h (by simp)
  · simp only [Except.ok.injEq] at h
    subst h
    exact (by decide : ("caution" : String) ∈ ["safe", "caution", "avoid"])
  · split at h
    · exact absurd h (by simp)
    · simp only [Except.ok.injEq] at h
      subst h
      exact (by decide : ("safe" : String) ∈ ["safe", "caution", "avoid"])
    · split at h
      · exact absurd h (by simp)
      · split at h
        · exact absurd h (by simp)
        · simp only [Except.ok.injEq] at h
          subst h
          exact classifyIngredient_fst_mem _ _ _

/-- Helper: the default-safe rewrite on a neutral state with no recorded
contraindications. -/
theorem finalizeRisk_neutral (st : RiskState)
    (hc : st.riskClassification = "neutral") (hct : st.contraindications = []) :
    finalizeRisk st =
      { st with riskClassification := "safe"
                riskScore := 20
                rationale := "This dish appears safe based on your health profile." } := by
  unfold finalizeRisk
  rw [hc, hct]
  simp

/-- Helper: the default-safe rewrite leaves a non-neutral state alone. -/
theorem finalizeRisk_other (st : RiskState)
    (hc : ¬ st.riskClassification = "neutral") : finalizeRisk st = st := by
  unfold finalizeRisk
  have hb : (st.riskClassification == "neutral") = false := by
    simp [hc]
  rw [hb]
  simp

/-- Helper: one loop step of `calculateDishRisk`, started from a reachable
non-break state, either continues in a reachable state or breaks with avoid
and a score of 90 or 95. -/
theorem stepIngredient_good (env : DishEnv) (sp : String) (st st2 : RiskState)
    (b : Bool) (name : String) (hg : GoodLoopState st)
    (h : stepIngredient env sp st name = Except.ok (st2, b)) :
    (b = false ∧ GoodLoopState st2) ∨
      (b = true ∧ st2.riskClassification = "avoid" ∧
        (st2.riskScore = 90 ∨ st2.riskScore = 95)) := by
  unfold stepIngredient at h
  split at h
  · exact absurd h (by simp)
  · simp only [Except.ok.injEq, Prod.mk.injEq] at h
    obtain ⟨h1, h2⟩ := h
    subst h1
    subst h2
    exact Or.inl ⟨rfl, hg⟩
  · split at h
    · -- toxicity warning found: break with avoid, 95
      simp only [Except.ok.injEq, Prod.mk.injEq] at h
      obtain ⟨h1, h2⟩ := h
      subst h1
      subst h2
      exact Or.inr ⟨rfl, rfl, Or.inr rfl⟩
    · split at h
      · -- species-unsafe: break with avoid, 90
        simp only [Except.ok.injEq, Prod.mk.injEq] at h
        obtain ⟨h1, h2⟩ := h
        subst h1
        subst h2
        exact Or.inr ⟨rfl, rfl, Or.inl rfl⟩
      · split at h
        · exact absurd h (by simp)
        · -- no contraindication row
          simp only [Except.ok.injEq, Prod.mk.injEq] at h
          obtain ⟨h1, h2⟩ := h
          subst h1
          subst h2
          exact Or.inl ⟨rfl, hg⟩
        · split at h
          · -- avoid-type contraindication: caution, max score 70
            simp only [Except.ok.injEq, Prod.mk.injEq] at h
            obtain ⟨h1, h2⟩ := h
            subst h1
            subst h2
            refine Or.inl ⟨rfl, Or.inr ⟨rfl, ?_⟩⟩
            show max st.riskScore 70 = 60 ∨ max st.riskScore 70 = 70
            rcases hg with ⟨_, hsc, _⟩ | ⟨_, hsc | hsc⟩ <;> rw [hsc] <;> decide
          · split at h
            · -- limit-type contraindication on a neutral state
              split at h
              · rename_i hneu
                simp only [Except.ok.injEq, Prod.mk.injEq] at h
                obtain ⟨h1, h2⟩ := h
                subst h1
                subst h2
                refine Or.inl ⟨rfl, Or.inr ⟨rfl, ?_⟩⟩
                show max st.riskScore 60 = 60 ∨ max st.riskScore 60 = 70
                rcases hg with ⟨_, hsc, _⟩ | ⟨hcl, _⟩
                · rw [hsc]; decide
                · -- a caution state cannot pass the neutral test
                  rw [beq_iff_eq] at hneu
                  rw [hneu] at hcl
                  exact absurd hcl (by decide)
              · simp only [Except.ok.injEq, Prod.mk.injEq] at h
                obtain ⟨h1, h2⟩ := h
                subst h1
                subst h2
                exact Or.inl ⟨rfl, hg⟩
            · simp only [Except.ok.injEq, Prod.mk.injEq] at h
              obtain ⟨h1, h2⟩ := h
              subst h1
              subst h2
              exact Or.inl ⟨rfl, hg⟩

/-- Helper: every state the loop of `calculateDishRisk` can finish in, from
a reachable state, is reachable or a break state. -/
theorem riskLoop_good (env : DishEnv) (sp : String) :
    ∀ (l : List String) (st st2 : RiskState), GoodLoopState st →
      riskLoop env sp st l = Except.ok st2 →
      GoodLoopState st2 ∨
        (st2.riskClassification = "avoid" ∧
          (st2.riskScore = 90 ∨ st2.riskScore = 95)) := by
  intro l
  induction l with
  | nil =>
    intro st st2 hg h
    unfold riskLoop at h
    simp only [Except.ok.injEq] at h
    subst h
    exact Or.inl hg
  | cons name rest ih =>
    intro st st2 hg h
    unfold riskLoop at h
    cases hs : stepIngredient env sp st name with
    | error e =>
      rw [hs] at h
      exact absurd h (by simp)
    | ok p =>
      obtain ⟨stm, b⟩ := p
      rw [hs] at h
      rcases stepIngredient_good env sp st stm b name hg hs with ⟨hb, hg2⟩ | ⟨hb, hcls, hsc⟩
      · subst hb
        exact ih stm st2 hg2 h
      · subst hb
        simp only [Except.ok.injEq] at h
        subst h
        exact Or.inr ⟨hcls, hsc⟩

/-- Helper: every assessment `calculateDishRisk` returns is safe with score
20, caution with score 60 or 70, avoid with score 90 or 95, or neutral with
score 50 (the catch fallback). -/
theorem calculateDishRisk_cases (env : DishEnv) (dish : Dish) :
    ((calculateDishRisk env dish).risk_classification = "safe" ∧
      (calculateDishRisk env dish).risk_score = 20) ∨
    ((calculateDishRisk env dish).risk_classification = "caution" ∧
      ((calculateDishRisk env dish).risk_score = 60 ∨
        (calculateDishRisk env dish).risk_score = 70)) ∨
    ((calculateDishRisk env dish).risk_classification = "avoid" ∧
      ((calculateDishRisk env dish).risk_score = 90 ∨
        (calculateDishRisk env dish).risk_score = 95)) ∨
    ((calculateDishRisk env dish).risk_classification = "neutral" ∧
      (calculateDishRisk env dish).risk_score = 50) := by
  unfold calculateDishRisk
  cases hb : calcDishRiskBody env dish with
  | error e =>
    right; right; right
    exact ⟨rfl, rfl⟩
  | ok a =>
    unfold calcDishRiskBody at hb
    split at hb
    · exact absurd hb (by simp)
    · rename_i speciesOpt hp
      split at hb
      · exact absurd hb (by simp)
      · rename_i st0 hl
        simp only [Except.ok.injEq] at hb
        subst hb
        have hg0 : GoodLoopState initRiskState := Or.inl ⟨rfl, rfl, rfl⟩
        rcases riskLoop_good env (jsOrString speciesOpt "human") dish.ingredients
            initRiskState st0 hg0 hl with hgood | ⟨hcls, hsc⟩
        · rcases hgood with ⟨hc, hs, hct⟩ | ⟨hc, hs⟩
          · left
            rw [finalizeRisk_neutral st0 hc hct]
            exact ⟨rfl, rfl⟩
          · right; left
            rw [finalizeRisk_other st0 (by rw [hc]; decide)]
            exact ⟨hc, hs⟩
        · right; right; left
          rw [finalizeRisk_other st0 (by rw [hcls]; decide)]
          exact ⟨hcls, hsc⟩

/-- C3: every stored lookup result carries one of the three lookup labels,
and every assessment `calculateDishRisk` returns (its catch path included)
carries one of the five dish labels. -/
theorem c3_label_totality :
    (∀ (env : LookupEnv) (q : String) (r : LookupResult),
      (handleLookupRun env q).1 = some r →
      r.safety_classification ∈ (["safe", "caution", "avoid"] : List String)) ∧
    (∀ (env : DishEnv) (dish : Dish),
      (calculateDishRisk env dish).risk_classification ∈
        (["safe", "beneficial", "neutral", "caution", "avoid"] : List String)) := by
  constructor
  · intro env q r h
    exact handleLookupPre_classification env q r (handleLookupRun_fst_some env q r h)
  · intro env dish
    rcases calculateDishRisk_cases env dish with ⟨hc, _⟩ | ⟨hc, _⟩ | ⟨hc, _⟩ | ⟨hc, _⟩ <;>
      rw [hc] <;> decide

/-- C3 witness: the totality facts on a concrete missing-row lookup and a
concrete toxic dish. -/
theorem c3_label_totality_witness :
    (notFoundResult "pizza").safety_classification ∈
      (["safe", "caution", "avoid"] : List String) ∧
    (calculateDishRisk chocDishEnv chocDish).risk_classification ∈
      (["safe", "beneficial", "neutral", "caution", "avoid"] : List String) :=
  ⟨c3_label_totality.1 missEnv "pizza" (notFoundResult "pizza") (by decide),
   c3_label_totality.2 chocDishEnv chocDish⟩

/-- C4: numeric invariants of every assessment `calculateDishRisk` returns,
over every environment: the score is one of 20, 50, 60, 70, 90, 95 (hence
at most 100); avoid implies a score of at least 90; safe implies exactly 20;
neutral implies exactly 50; and the classification beneficial, though
declared in the result type, is never produced. -/
theorem c4_assessment_invariants (env : DishEnv) (dish : Dish) :
    (calculateDishRisk env dish).risk_score ∈ ([20, 50, 60, 70, 90, 95] : List Nat) ∧
    (calculateDishRisk env dish).risk_score ≤ 100 ∧
    ((calculateDishRisk env dish).risk_classification = "avoid" →
      90 ≤ (calculateDishRisk env dish).risk_score) ∧
    ((calculateDishRisk env dish).risk_classification = "safe" →
      (calculateDishRisk env dish).risk_score = 20) ∧
    ((calculateDishRisk env dish).risk_classification = "neutral" →
      (calculateDishRisk env dish).risk_score = 50) ∧
    ¬ (calculateDishRisk env dish).risk_classification = "beneficial" := by
  rcases calculateDishRisk_cases env dish with
      ⟨hc, hs⟩ | ⟨hc, hs | hs⟩ | ⟨hc, hs | hs⟩ | ⟨hc, hs⟩ <;>
    rw [hc, hs] <;> decide

/-- C4 witness: the invariants evaluated on the concrete benign dish. -/
theorem c4_assessment_invariants_witness :
    (calculateDishRisk appleDishEnv appleDish).risk_score ∈
      ([20, 50, 60, 70, 90, 95] : List Nat) ∧
    (calculateDishRisk appleDishEnv appleDish).risk_score ≤ 100 ∧
    ((calculateDishRisk appleDishEnv appleDish).risk_classification = "avoid" →
      90 ≤ (calculateDishRisk appleDishEnv appleDish).risk_score) ∧
    ((calculateDishRisk appleDishEnv appleDish).risk_classification = "safe" →
      (calculateDishRisk appleDishEnv appleDish).risk_score = 20) ∧
    ((calculateDishRisk appleDishEnv appleDish).risk_classification = "neutral" →
      (calculateDishRisk appleDishEnv appleDish).risk_score = 50) ∧
    ¬ (calculateDishRisk appleDishEnv appleDish).risk_classification = "beneficial" :=
  c4_assessment_invariants appleDishEnv appleDish

/-- Helper: an ingredient that falls through every check leaves the loop
state untouched and does not break. -/
theorem stepIngredient_fallsThrough (env : DishEnv) (sp name : String)
    (st : RiskState) (h : fallsThrough env sp name = true) :
    stepIngredient env sp st name = Except.ok (st, false) := by
  unfold fallsThrough at h
  split at h
  · rename_i ing heq
    simp only [Bool.and_eq_true, Bool.not_eq_true', beq_iff_eq] at h
    obtain ⟨⟨h1, h2⟩, h3⟩ := h
    have h1b : toxicFind ing sp = none := Option.isNone_iff_eq_none.mp h1
    simp [stepIngredient, heq, h1b, h2, h3]
  · exact absurd h (by decide)

/-- Helper: a list of fall-through ingredients leaves the loop state
untouched. -/
theorem riskLoop_fallsThrough (env : DishEnv) (sp : String) :
    ∀ (l : List String) (st : RiskState),
      (∀ name ∈ l, fallsThrough env sp name = true) →
      riskLoop env sp st l = Except.ok st := by
  intro l
  induction l with
  | nil =>
    intro st _
    rfl
  | cons name rest ih =>
    intro st hall
    have hstep := stepIngredient_fallsThrough env sp name st
      (hall name (List.mem_cons_self name rest))
    unfold riskLoop
    rw [hstep]
    exact ih st (fun n hn => hall n (List.mem_cons_of_mem name hn))

/-- C2: when every check falls through — the ingredient row exists, no
toxicity warning lists the species, the species-safe flag is not false and
the contraindication query matches no row — `handleLookup` stores the
default safe result, and a dish all of whose ingredients fall through this
way is assessed safe with score 20. -/
theorem c2_default_safe :
    (∀ (env : LookupEnv) (q : String) (ing : Ingredient) (speciesOpt : Option String),
      env.ingredientQ = Except.ok (some ing) →
      env.userQ1 = Except.ok true →
      env.profileQ = Except.ok speciesOpt →
      env.contrasQ = Except.ok [] →
      toxicFind ing (jsOrString speciesOpt "human") = none →
      speciesSafeFalse ing (jsOrString speciesOpt "human") = false →
      (handleLookupRun env q).1 = some
        { food_name := q
          safety_classification := "safe"
          rationale := "This food appears to be generally safe for consumption."
          ingredients_identified := [ing.name] }) ∧
    (∀ (env : DishEnv) (dish : Dish) (speciesOpt : Option String),
      env.profileQ = Except.ok speciesOpt →
      (∀ name ∈ dish.ingredients,
        fallsThrough env (jsOrString speciesOpt "human") name = true) →
      (calculateDishRisk env dish).risk_classification = "safe" ∧
      (calculateDishRisk env dish).risk_score = 20) := by
  constructor
  · intro env q ing speciesOpt hin hu hp hcq htox hsafe
    have hcls : classifyIngredient ing (jsOrString speciesOpt "human") [] =
        ("safe", "This food appears to be generally safe for consumption.") := by
      simp [classifyIngredient, lookupContraStep, lookupSpeciesStep, lookupToxStep,
        htox, hsafe]
    apply handleLookupRun_fst_of_pre_ok
    simp only [handleLookupPre, hin, hu, hp, hcq, hcls]
  · intro env dish speciesOpt hp hall
    have hloop := riskLoop_fallsThrough env (jsOrString speciesOpt "human")
      dish.ingredients initRiskState hall
    constructor
    · simp only [calculateDishRisk, calcDishRiskBody, hp, hloop]
      rfl
    · simp only [calculateDishRisk, calcDishRiskBody, hp, hloop]
      rfl

/-- C2 witness: the concrete benign apple lookup and apple dish. -/
theorem c2_default_safe_witness :
    (handleLookupRun appleLookupEnv "apple").1 = some
      { food_name := "apple"
        safety_classification := "safe"
        rationale := "This food appears to be generally safe for consumption."
        ingredients_identified := ["apple"] } ∧
    (calculateDishRisk appleDishEnv appleDish).risk_classification = "safe" ∧
    (calculateDishRisk appleDishEnv appleDish).risk_score = 20 :=
  ⟨c2_default_safe.1 appleLookupEnv "apple" appleIngredient (some "human")
      rfl rfl rfl rfl (by decide) (by decide),
   c2_default_safe.2 appleDishEnv appleDish (some "human") rfl (by decide)⟩

/-- C5 (amended): every remote failure is absorbed at the handler — a throw
anywhere inside `calculateDishRisk` yields the neutral score-50 fallback
with empty contraindications; a throw in `handleLookup` before the result
was computed leaves no result stored; once the result was stored, a later
history-recording throw keeps it stored; and the loading flag is cleared
whenever the guarded body ran. -/
theorem c5_error_handling :
    (∀ (env : DishEnv) (dish : Dish),
      calcDishRiskBody env dish = Except.error () →
      calculateDishRisk env dish = fallbackAssessment dish.id) ∧
    (∀ (env : LookupEnv) (q : String),
      handleLookupPre env q = Except.error () →
      handleLookupRun env q = (none, true)) ∧
    (∀ (env : LookupEnv) (q : String) (r : LookupResult),
      handleLookupPre env q = Except.ok r →
      (handleLookupRun env q).1 = some r) ∧
    (∀ (env : LookupEnv) (q : String) (st : LookupUiState),
      blankQuery q = false → (handleLookup env q st).loading = false) := by
  refine ⟨?_, ?_, ?_, ?_⟩
  · intro env dish h
    unfold calculateDishRisk
    rw [h]
  · intro env q h
    unfold handleLookupRun
    rw [h]
  · intro env q r h
    exact handleLookupRun_fst_of_pre_ok env q r h
  · intro env q st h
    unfold handleLookup
    rw [h]
    rfl

/-- C5 witness: each amended clause applied to a concrete environment — a
throwing profile query in the dish assessment, a throwing ingredient query
in the lookup, a fully successful lookup, and a nonblank query. -/
theorem c5_error_handling_witness :
    calculateDishRisk failDishEnv appleDish = fallbackAssessment "dish-2" ∧
    handleLookupRun preFailLookupEnv "apple" = (none, true) ∧
    (handleLookupRun missEnv "banana").1 = some (notFoundResult "banana") ∧
    (handleLookup missEnv "banana" { loading := true, result := none }).loading = false :=
  ⟨c5_error_handling.1 failDishEnv appleDish (by decide),
   c5_error_handling.2.1 preFailLookupEnv "apple" (by decide),
   c5_error_handling.2.2.1 missEnv "banana" (notFoundResult "banana") (by decide),
   c5_error_handling.2.2.2 missEnv "banana" { loading := true, result := none } (by decide)⟩

/-- C7: under each of the three filter settings a dish whose stored
assessment is avoid is excluded from `filteredDishes`, and under the safe
filter a listed dish is included exactly when its stored assessment is safe
or beneficial. -/
theorem c7_filter_excludes_avoid :
    (∀ (fr : String) (dishes : List Dish)
        (m : String → Option DishRiskAssessment) (d : Dish) (a : DishRiskAssessment),
      fr ∈ (["all", "safe", "beneficial"] : List String) →
      m d.id = some a → a.risk_classification = "avoid" →
      d ∉ filteredDishes fr dishes m) ∧
    (∀ (dishes : List Dish) (m : String → Option DishRiskAssessment) (d : Dish),
      d ∈ dishes →
      (d ∈ filteredDishes "safe" dishes m ↔
        ∃ a, m d.id = some a ∧
          (a.risk_classification = "safe" ∨ a.risk_classification = "beneficial"))) := by
  constructor
  · intro fr dishes m d a hfr hm ha hmem
    rw [filteredDishes, List.mem_filter] at hmem
    have hv := hmem.2
    rw [hm] at hv
    simp only [List.mem_cons, List.not_mem_nil, or_false] at hfr
    rcases hfr with rfl | rfl | rfl <;>
      · simp only [dishVisible] at hv
        rw [ha] at hv
        simp at hv
  · intro dishes m d hd
    simp only [filteredDishes, List.mem_filter, hd, true_and]
    cases hma : m d.id with
    | none => simp [dishVisible, hma]
    | some a => simp [dishVisible, hma]

/-- C7 witness: the avoid dish is dropped by the all filter, and a safe dish
passes the safe filter. -/
theorem c7_filter_excludes_avoid_witness :
    chocDish ∉ filteredDishes "all" [chocDish] avoidMap ∧
    chocDish ∈ filteredDishes "safe" [chocDish] safeMap :=
  ⟨c7_filter_excludes_avoid.1 "all" [chocDish] avoidMap chocDish avoidAssessment
      (by decide) rfl rfl,
   (c7_filter_excludes_avoid.2 [chocDish] safeMap chocDish (by decide)).mpr
      ⟨safeAssessment, rfl, Or.inl rfl⟩⟩

/-- Helper: every dish of the list gets its freshly computed assessment into
the map `assessDishRisks` builds. -/
theorem assessLoop_mem (env : DishEnv) :
    ∀ (l : List Dish) (d : Dish), d ∈ l →
      (d.id, calculateDishRisk env d) ∈ assessLoop env l := by
  intro l
  induction l with
  | nil =>
    intro d hd
    cases hd
  | cons x rest ih =>
    intro d hd
    rcases List.mem_cons.mp hd with rfl | hmem
    · unfold assessLoop
      exact List.mem_cons_self _ _
    · unfold assessLoop
      exact List.mem_cons_of_mem _ (ih d hmem)

/-- C9: no state computed by one pass is reused by a later one — the risk
map `assessDishRisks` builds is independent of the previous map and every
entry is recomputed by `calculateDishRisk` from the current remote
responses, and the result a second `handleLookup` stores is exactly the
recomputation from its own remote responses, whatever an earlier lookup
left in the state. -/
theorem c9_no_cross_call_caching :
    (∀ (env : DishEnv) (dishList : List Dish)
        (p1 p2 : List (String × DishRiskAssessment)),
      assessDishRisks env true dishList p1 = assessDishRisks env true dishList p2) ∧
    (∀ (env : DishEnv) (dishList : List Dish)
        (prior : List (String × DishRiskAssessment)) (d : Dish),
      d ∈ dishList →
      (d.id, calculateDishRisk env d) ∈ assessDishRisks env true dishList prior) ∧
    (∀ (e1 e2 : LookupEnv) (q1 q2 : String) (st : LookupUiState),
      blankQuery q2 = false →
      (handleLookup e2 q2 (handleLookup e1 q1 st)).result = (handleLookupRun e2 q2).1) := by
  refine ⟨?_, ?_, ?_⟩
  · intro env dishList p1 p2
    rfl
  · intro env dishList prior d hd
    unfold assessDishRisks
    rw [if_pos rfl]
    exact assessLoop_mem env dishList d hd
  · intro e1 e2 q1 q2 st h
    unfold handleLookup
    rw [h]
    rfl

/-- C9 witness: the concrete two-dish list and a concrete repeated lookup. -/
theorem c9_no_cross_call_caching_witness :
    assessDishRisks appleDishEnv true [appleDish] [] =
      assessDishRisks appleDishEnv true [appleDish] [("x", avoidAssessment)] ∧
    (appleDish.id, calculateDishRisk appleDishEnv appleDish) ∈
      assessDishRisks appleDishEnv true [appleDish] [("x", avoidAssessment)] ∧
    (handleLookup missEnv "banana"
        (handleLookup appleLookupEnv "apple" { loading := false, result := none })).result =
      (handleLookupRun missEnv "banana").1 :=
  ⟨c9_no_cross_call_caching.1 appleDishEnv [appleDish] [] [("x", avoidAssessment)],
   c9_no_cross_call_caching.2.1 appleDishEnv [appleDish] [("x", avoidAssessment)]
      appleDish (by decide),
   c9_no_cross_call_caching.2.2 appleLookupEnv missEnv "apple" "banana"
      { loading := false, result := none } (by decide)⟩

/-- Helper: the ingredient names the loop trace queries form a prefix of the
dish ingredient list. -/
theorem riskLoopTrace_names (env : DishEnv) (sp : String) :
    ∀ names : List String, ∃ k,
      tracedIngredientNames (riskLoopTrace env sp names) = names.take k := by
  intro names
  induction names with
  | nil => exact ⟨0, rfl⟩
  | cons n rest ih =>
    unfold riskLoopTrace
    cases hq : env.ingredientQ n with
    | error e =>
      refine ⟨1, ?_⟩
      simp [tracedIngredientNames, eventIngredientName]
    | ok oi =>
      cases oi with
      | none =>
        obtain ⟨k, hk⟩ := ih
        refine ⟨k + 1, ?_⟩
        simp [tracedIngredientNames, eventIngredientName] at hk ⊢
        exact hk
      | some ing =>
        cases ht : toxicFind ing sp with
        | some w =>
          refine ⟨1, ?_⟩
          simp [ht, tracedIngredientNames, eventIngredientName]
        | none =>
          cases hs : speciesSafeFalse ing sp with
          | true =>
            refine ⟨1, ?_⟩
            simp [ht, hs, tracedIngredientNames, eventIngredientName]
          | false =>
            cases hc : env.contraQ ing.id sp with
            | error e =>
              refine ⟨1, ?_⟩
              simp [ht, hs, hc, tracedIngredientNames, eventIngredientName]
            | ok c =>
              obtain ⟨k, hk⟩ := ih
              refine ⟨k + 1, ?_⟩
              simp [ht, hs, hc, tracedIngredientNames, eventIngredientName] at hk ⊢
              exact hk

/-- C10: the remote calls are issued strictly one after another — the dish
loop trace decomposes dish by dish in list order, the ingredient queries of
one dish form a prefix of its ingredient list in order, and every dish
assessment starts with the profile read. -/
theorem c10_sequential_calls :
    (∀ (env : DishEnv) (l1 l2 : List Dish),
      assessDishesTrace env (l1 ++ l2) =
        assessDishesTrace env l1 ++ assessDishesTrace env l2) ∧
    (∀ (env : DishEnv) (sp : String) (names : List String),
      ∃ k, tracedIngredientNames (riskLoopTrace env sp names) = names.take k) ∧
    (∀ (env : DishEnv) (dish : Dish),
      (calcDishTrace env dish).head? = some CallEvent.profileQ) := by
  refine ⟨?_, ?_, ?_⟩
  · intro env l1 l2
    induction l1 with
    | nil => rfl
    | cons d rest ih =>
      simp only [List.cons_append, assessDishesTrace, List.append_eq,
        List.append_assoc, ih]
  · intro env sp names
    exact riskLoopTrace_names env sp names
  · intro env dish
    rfl

end PrecisionHealth
